import Mathlib

set_option maxRecDepth 10000

/-!
Verification of the "chamber" WebSocket chat relay (src/main.rs).

The per-connection session loop (`handle`) is embedded as a pure step
function over the events the `tokio::select!` race can observe, producing
a list of observable actions (frames sent to the client, envelopes
published to the broadcast hub, log lines, sleeps).  The whole session
(greeting, subscription, loop, final disconnect publish) is `runSession`.
Machine integers (`u64`) are modelled as `Nat` with explicit `2 ^ 64`
arithmetic where wraparound matters (the identity counter).
-/

namespace Chamber

/-- A WebSocket close frame: numeric status code and reason text
(mirrors `axum::extract::ws::CloseFrame`). -/
structure CloseFrame where
  code : Nat
  reason : String
  deriving DecidableEq, Repr

/-- A WebSocket message frame (mirrors `axum::extract::ws::Message`).
Binary payloads are byte lists. -/
inductive Message where
  | text (t : String)
  | binary (b : List Nat)
  | ping (b : List Nat)
  | pong (b : List Nat)
  | close (f : Option CloseFrame)
  deriving DecidableEq, Repr

/-- What `rcv.recv()` on the hub subscription can produce: a closed
channel, a lag report, or an envelope `(senderId, message)`
(mirrors `Result<(u64, Message), RecvError>`). -/
inductive HubEvent where
  | closed
  | lagged (skip : Nat)
  | env (sender : Nat) (msg : Message)
  deriving DecidableEq, Repr

/-- What `ws.recv()` on the client stream can produce: stream ended
(`None`), a transport error (`Some(Err(_))`), or a frame
(`Some(Ok(msg))`). -/
inductive ClientEvent where
  | ended
  | err
  | frame (msg : Message)
  deriving DecidableEq, Repr

/-- The outcome of one `tokio::select!` race (the `Race` enum in
`handle`). -/
inductive Race where
  | Other (e : HubEvent)
  | Me (e : ClientEvent)
  deriving DecidableEq, Repr

/-- Observable actions a session performs, in program order. -/
inductive Action where
  | subscribe
  | unsubscribe
  | sendClient (m : Message)
  | publish (sender : Nat) (m : Message)
  | logWarn (s : String)
  | logError
  | sleepMs (ms : Nat)
  deriving DecidableEq, Repr

/-- The message-size limit: `t.len() > 500` in the source. -/
def LIMIT : Nat := 500

/-- The sentinel identity `u64::MAX` used to tag hub-internal system
messages. -/
def SENTINEL : Nat := 2 ^ 64 - 1

/-- The private greeting frame `"You are {id}"`. -/
def greetMsg (id : Nat) : Message :=
  .text ("You are " ++ Nat.repr id)

/-- One iteration of the `loop` in `handle`: given the session's own
identity and the event the race produced, the actions performed and
whether the loop continues (`true`) or breaks (`false`).  The branches
mirror the `match evt` arms of the source in order. -/
def step (id : Nat) (evt : Race) : List Action × Bool :=
  match evt with
  | .Other .closed => ([], false)
  | .Other (.lagged skip) =>
      ([.logWarn (Nat.repr id ++ " lagged " ++ Nat.repr skip ++ " messages")], true)
  | .Other (.env sender msg) =>
      if sender = SENTINEL then
        ([.sendClient msg], true)
      else
        match msg with
        | .text t => ([.sendClient (.text (Nat.repr sender ++ " says " ++ t))], true)
        | _ => ([], true)
  | .Me .ended => ([], false)
  | .Me .err => ([.logError], true)
  | .Me (.frame (.text t)) =>
      if t.utf8ByteSize > LIMIT then
        ([.logWarn (Nat.repr id ++ " sent too long message"),
          .sendClient (.text "message too long, not sent"),
          .sleepMs 500], true)
      else
        ([.publish id (.text t)], true)
  | .Me (.frame (.close f)) => ([], true)
  | .Me (.frame m) =>
      ([.logWarn (Nat.repr id ++ " sent binary"),
        .sendClient (.close (some ⟨1003, "only text messages are allowed"⟩))],
       false)

/-- Running the loop over a finite trace of race outcomes: the actions
performed, and whether the loop has broken out (`true`) or is still
waiting for further events when the trace runs out (`false`). -/
def runLoop (id : Nat) : List Race → List Action × Bool
  | [] => ([], false)
  | e :: es =>
      let p := step id e
      if p.2 then
        let q := runLoop id es
        (p.1 ++ q.1, q.2)
      else
        (p.1, true)

/-- The exit actions after the loop breaks: publish the sentinel-tagged
disconnect notice, then drop the hub subscription (end of scope of
`rcv`). -/
def exitActions (id : Nat) : List Action :=
  [.publish SENTINEL (.text (Nat.repr id ++ " disconnected")), .unsubscribe]

/-- The whole session in program order: send `"You are {id}"`, subscribe
to the hub, run the loop, and, if the loop broke, perform the exit
actions. -/
def runSession (id : Nat) (evs : List Race) : List Action :=
  .sendClient (greetMsg id) :: .subscribe ::
    ((runLoop id evs).1 ++ if (runLoop id evs).2 then exitActions id else [])

/-- The broadcast channel's `send`: fails exactly when there is no live
receiver (mirrors `tokio::sync::broadcast::Sender::send`), otherwise
reports the receiver count. -/
def broadcastSend (receivers : Nat) : Except Unit Nat :=
  if receivers = 0 then .error () else .ok receivers

/-- Walk a session trace checking that every hub publish happens at a
moment when `broadcastSend` would succeed, tracking whether the
session's own subscription is live; `others` is any number of receivers
held by other sessions. -/
def tracePublishOk (others : Nat) : Bool → List Action → Bool
  | _, [] => true
  | _, .subscribe :: r => tracePublishOk others true r
  | _, .unsubscribe :: r => tracePublishOk others false r
  | sub, .publish s m :: r =>
      (broadcastSend ((if sub then 1 else 0) + others)).toBool &&
        tracePublishOk others sub r
  | sub, _ :: r => tracePublishOk others sub r

/-- The identity counter after `k` calls of `fetch_add(1, SeqCst)`,
starting from 0, with `u64` wraparound. -/
def counterAfter : Nat → Nat
  | 0 => 0
  | k + 1 => (counterAfter k + 1) % 2 ^ 64

/-- The identity assigned to the `k`-th accepted connection (0-indexed):
`fetch_add` returns the old counter value. -/
def idOf (k : Nat) : Nat := counterAfter k

/-! Helper lemmas: the decimal representation of a `Nat` starts with a
digit, so none of the strings the loop can send coincides with the
greeting `"You are {id}"`, which starts with `'Y'`. -/

theorem digitChar_isDigit (n : Nat) (h : n < 10) : (Nat.digitChar n).isDigit = true := by
  interval_cases n <;> decide

theorem toDigitsCore_digit_head (fuel n : Nat) (ds : List Char) :
    Nat.toDigitsCore 10 fuel n ds = ds ∨
    ∃ c cs, Nat.toDigitsCore 10 fuel n ds = c :: cs ∧ c.isDigit = true := by
  induction fuel generalizing n ds with
  | zero => exact Or.inl rfl
  | succ fuel ih =>
    rw [Nat.toDigitsCore]
    by_cases h : n / 10 = 0
    · rw [if_pos h]
      exact Or.inr ⟨_, _, rfl, digitChar_isDigit _ (by omega)⟩
    · rw [if_neg h]
      rcases ih (n / 10) (Nat.digitChar (n % 10) :: ds) with h1 | h1
      · exact Or.inr ⟨_, _, h1, digitChar_isDigit _ (by omega)⟩
      · exact Or.inr h1

theorem repr_digit_head (n : Nat) :
    ∃ c cs, (Nat.repr n).data = c :: cs ∧ c.isDigit = true := by
  have hdef : (Nat.repr n).data = Nat.toDigitsCore 10 (n + 1) n [] := rfl
  rw [hdef, Nat.toDigitsCore]
  by_cases h : n / 10 = 0
  · rw [if_pos h]
    exact ⟨_, _, rfl, digitChar_isDigit _ (by omega)⟩
  · rw [if_neg h]
    rcases toDigitsCore_digit_head n (n / 10) [Nat.digitChar (n % 10)] with h1 | h1
    · rw [h1]
      exact ⟨_, _, rfl, digitChar_isDigit _ (by omega)⟩
    · exact h1

theorem youAre_ne_repr_append (a b : Nat) (t : String) :
    "You are " ++ Nat.repr a ≠ Nat.repr b ++ t := by
  intro h
  have hd := congrArg String.data h
  rw [String.data_append, String.data_append] at hd
  obtain ⟨c, cs, hc, hdig⟩ := repr_digit_head b
  rw [hc] at hd
  have hY : "You are ".data = 'Y' :: "ou are ".data := rfl
  rw [hY, List.cons_append, List.cons_append] at hd
  have : ('Y' : Char) = c := (List.cons.injEq _ _ _ _).mp hd |>.1
  rw [← this] at hdig
  exact absurd hdig (by decide)

theorem youAre_ne_tooLong (a : Nat) :
    "You are " ++ Nat.repr a ≠ "message too long, not sent" := by
  intro h
  have hd := congrArg String.data h
  rw [String.data_append] at hd
  have hY : "You are ".data = 'Y' :: "ou are ".data := rfl
  have hm : "message too long, not sent".data = 'm' :: "essage too long, not sent".data := rfl
  rw [hY, hm, List.cons_append] at hd
  have : ('Y' : Char) = 'm' := (List.cons.injEq _ _ _ _).mp hd |>.1
  exact absurd this (by decide)

/-- C1: a hub envelope `(otherId, Text t)` with a non-sentinel sender is
forwarded to the client as exactly `"{otherId} says {t}"` and the session
stays in the loop; a within-limit client text is published as
`(selfId, Text t)`, and the publishing session, receiving its own
envelope back from the hub, formats it identically. -/
theorem relay_format_and_self_inclusion (recvId sender selfId : Nat) (t : String)
    (hs : sender ≠ SENTINEL) (hself : selfId ≠ SENTINEL)
    (hlen : ¬ t.utf8ByteSize > LIMIT) :
    step recvId (.Other (.env sender (.text t))) =
      ([.sendClient (.text (Nat.repr sender ++ " says " ++ t))], true) ∧
    step selfId (.Me (.frame (.text t))) = ([.publish selfId (.text t)], true) ∧
    step selfId (.Other (.env selfId (.text t))) =
      ([.sendClient (.text (Nat.repr selfId ++ " says " ++ t))], true) := by
  refine ⟨?_, ?_, ?_⟩ <;> simp [step, hs, hself, hlen]

/-- C1 witness at sender 3, receiver 1, self 0, text `"hi"`. -/
theorem relay_format_and_self_inclusion_witness :
    ((3 : Nat) ≠ SENTINEL ∧ (0 : Nat) ≠ SENTINEL ∧
      ¬ ("hi" : String).utf8ByteSize > LIMIT) ∧
    (step 1 (.Other (.env 3 (.text "hi"))) =
      ([.sendClient (.text (Nat.repr 3 ++ " says " ++ "hi"))], true) ∧
    step 0 (.Me (.frame (.text "hi"))) = ([.publish 0 (.text "hi")], true) ∧
    step 0 (.Other (.env 0 (.text "hi"))) =
      ([.sendClient (.text (Nat.repr 0 ++ " says " ++ "hi"))], true)) :=
  ⟨⟨by decide, by decide, by decide⟩,
   relay_format_and_self_inclusion 1 3 0 "hi" (by decide) (by decide) (by decide)⟩

/-- C4: an over-limit client text produces exactly the private
`"message too long, not sent"` notice (plus a warning log and a 500 ms
sleep), the loop continues, and nothing is published to the hub. -/
theorem oversize_notice_private (id : Nat) (t : String)
    (h : t.utf8ByteSize > LIMIT) :
    step id (.Me (.frame (.text t))) =
      ([.logWarn (Nat.repr id ++ " sent too long message"),
        .sendClient (.text "message too long, not sent"),
        .sleepMs 500], true) ∧
    ∀ s m, Action.publish s m ∉ (step id (.Me (.frame (.text t)))).1 := by
  constructor
  · simp [step, h]
  · intro s m
    simp [step, h]

/-- C4 witness at a 501-byte text. -/
theorem oversize_notice_private_witness :
    (String.mk (List.replicate 501 'a')).utf8ByteSize > LIMIT ∧
    (step 9 (.Me (.frame (.text (String.mk (List.replicate 501 'a'))))) =
      ([.logWarn (Nat.repr 9 ++ " sent too long message"),
        .sendClient (.text "message too long, not sent"),
        .sleepMs 500], true) ∧
    ∀ s m, Action.publish s m ∉
      (step 9 (.Me (.frame (.text (String.mk (List.replicate 501 'a')))))).1) :=
  ⟨by decide, oversize_notice_private 9 (String.mk (List.replicate 501 'a')) (by decide)⟩

/-- C7: a `Lagged(n)` hub event only logs a warning and never breaks the
loop: prepending it to any event trace leaves the rest of the run (and
whether it terminates) unchanged. -/
theorem lagged_never_terminates (id n : Nat) (evs : List Race) :
    step id (.Other (.lagged n)) =
      ([.logWarn (Nat.repr id ++ " lagged " ++ Nat.repr n ++ " messages")], true) ∧
    runLoop id (.Other (.lagged n) :: evs) =
      (.logWarn (Nat.repr id ++ " lagged " ++ Nat.repr n ++ " messages")
         :: (runLoop id evs).1,
       (runLoop id evs).2) := by
  exact ⟨rfl, by simp [runLoop, step]⟩

/-- C8: a hub envelope tagged with the sentinel identity is forwarded to
the client verbatim, whatever the payload, and the loop continues. -/
theorem sentinel_forwarded_verbatim (id : Nat) (m : Message) :
    step id (.Other (.env SENTINEL m)) = ([.sendClient m], true) := by
  simp [step]

/-- Identity counter values stay literal while below the wraparound
bound. -/
theorem counterAfter_eq (k : Nat) (h : k < 2 ^ 64) : counterAfter k = k := by
  induction k with
  | zero => rfl
  | succ k ih =>
    rw [counterAfter, ih (Nat.lt_of_succ_lt h)]
    exact Nat.mod_eq_of_lt h

/-- C6: identities start at 0, are strictly increasing (hence never
reused), and, while the connection count stays below the integer range,
the sentinel `u64::MAX` is never assigned. -/
theorem identity_monotone_no_sentinel (i j : Nat) (hij : i < j)
    (hj : j < 2 ^ 64 - 1) :
    idOf 0 = 0 ∧ idOf i < idOf j ∧ idOf i ≠ idOf j ∧
    idOf i ≠ SENTINEL ∧ idOf j ≠ SENTINEL := by
  have hi' : idOf i = i := counterAfter_eq i (by omega)
  have hj' : idOf j = j := counterAfter_eq j (by omega)
  have hs : SENTINEL = 2 ^ 64 - 1 := rfl
  have h2 : (2 : Nat) ^ 64 = 18446744073709551616 := by norm_num
  refine ⟨rfl, ?_, ?_, ?_, ?_⟩ <;> simp only [hi', hj', hs, h2] at * <;> omega

/-- C6 witness at connections 0 and 1. -/
theorem identity_monotone_no_sentinel_witness :
    ((0 : Nat) < 1 ∧ (1 : Nat) < 2 ^ 64 - 1) ∧
    (idOf 0 = 0 ∧ idOf 0 < idOf 1 ∧ idOf 0 ≠ idOf 1 ∧
     idOf 0 ≠ SENTINEL ∧ idOf 1 ≠ SENTINEL) :=
  ⟨⟨by decide, by norm_num⟩,
   identity_monotone_no_sentinel 0 1 (by decide) (by norm_num)⟩

/-- C2: whenever the loop has broken — and it breaks exactly on hub
closure, end of the client stream, or a non-text non-close client frame —
the session's remaining actions are exactly the sentinel-tagged
`"{selfId} disconnected"` publish followed by dropping the
subscription. -/
theorem disconnect_notice_on_termination (id : Nat) (evs : List Race)
    (h : (runLoop id evs).2 = true) :
    runSession id evs =
      .sendClient (greetMsg id) :: .subscribe ::
        ((runLoop id evs).1 ++
          [.publish SENTINEL (.text (Nat.repr id ++ " disconnected")), .unsubscribe]) ∧
    ∀ e, (step id e).2 = false ↔
      (e = .Other .closed ∨ e = .Me .ended ∨
        ∃ m, e = .Me (.frame m) ∧ (∀ t, m ≠ .text t) ∧ ∀ f, m ≠ .close f) := by
  constructor
  · simp only [runSession, h, if_true, exitActions]
  · intro e
    rcases e with he | he
    · rcases he with _ | n | ⟨s, m⟩
      · simp [step]
      · simp [step]
      · by_cases hs : s = SENTINEL
        · simp [step, hs]
        · rcases m with t | b | b | b | f <;> simp [step, hs]
    · rcases he with _ | _ | m
      · simp [step]
      · simp [step]
      · rcases m with t | b | b | b | f
        · constructor
          · intro hfalse
            exfalso
            simp only [step] at hfalse
            split at hfalse <;> simp_all
          · rintro (h1 | h1 | ⟨m, hm, hnt, hnc⟩)
            · exact Race.noConfusion h1
            · simp at h1
            · simp only [Race.Me.injEq, ClientEvent.frame.injEq] at hm
              exact absurd hm.symm (hnt t)
        · constructor
          · intro _
            refine Or.inr (Or.inr ⟨.binary b, rfl, ?_, ?_⟩)
            · intro u hu; exact Message.noConfusion hu
            · intro g hg; exact Message.noConfusion hg
          · intro _; rfl
        · constructor
          · intro _
            refine Or.inr (Or.inr ⟨.ping b, rfl, ?_, ?_⟩)
            · intro u hu; exact Message.noConfusion hu
            · intro g hg; exact Message.noConfusion hg
          · intro _; rfl
        · constructor
          · intro _
            refine Or.inr (Or.inr ⟨.pong b, rfl, ?_, ?_⟩)
            · intro u hu; exact Message.noConfusion hu
            · intro g hg; exact Message.noConfusion hg
          · intro _; rfl
        · constructor
          · intro hfalse
            exact absurd hfalse (by simp [step])
          · rintro (h1 | h1 | ⟨m, hm, hnt, hnc⟩)
            · exact Race.noConfusion h1
            · simp at h1
            · simp only [Race.Me.injEq, ClientEvent.frame.injEq] at hm
              exact absurd hm.symm (hnc f)

/-- C2 witness on a trace whose single event is hub closure. -/
theorem disconnect_notice_on_termination_witness :
    (runLoop 7 [Race.Other .closed]).2 = true ∧
    (runSession 7 [Race.Other .closed] =
      .sendClient (greetMsg 7) :: .subscribe ::
        ((runLoop 7 [Race.Other .closed]).1 ++
          [.publish SENTINEL (.text (Nat.repr 7 ++ " disconnected")), .unsubscribe]) ∧
    ∀ e, (step 7 e).2 = false ↔
      (e = .Other .closed ∨ e = .Me .ended ∨
        ∃ m, e = .Me (.frame m) ∧ (∀ t, m ≠ .text t) ∧ ∀ f, m ≠ .close f)) :=
  ⟨rfl, disconnect_notice_on_termination 7 [Race.Other .closed] rfl⟩

/-- Every envelope a loop iteration publishes carries a text payload. -/
theorem publish_mem_step_text (id : Nat) (e : Race) (s : Nat) (m : Message)
    (h : Action.publish s m ∈ (step id e).1) : ∃ u, m = .text u := by
  rcases e with he | he
  · rcases he with _ | n | ⟨sender, msg⟩
    · simp [step] at h
    · simp [step] at h
    · by_cases hs : sender = SENTINEL
      · simp [step, hs] at h
      · rcases msg with t | b | b | b | f <;> simp [step, hs] at h
  · rcases he with _ | _ | msg
    · simp [step] at h
    · simp [step] at h
    · rcases msg with t | b | b | b | f
      · by_cases hl : t.utf8ByteSize > LIMIT
        · simp [step, hl] at h
        · simp [step, hl] at h
          exact ⟨t, h.2⟩
      · simp [step] at h
      · simp [step] at h
      · simp [step] at h
      · simp [step] at h

/-- Every envelope the loop publishes over a whole trace carries a text
payload. -/
theorem publish_mem_runLoop_text (id : Nat) (evs : List Race) (s : Nat) (m : Message)
    (h : Action.publish s m ∈ (runLoop id evs).1) : ∃ u, m = .text u := by
  induction evs with
  | nil => simp [runLoop] at h
  | cons e es ih =>
    simp only [runLoop] at h
    by_cases hc : (step id e).2
    · rw [if_pos hc] at h
      rcases List.mem_append.mp h with h1 | h1
      · exact publish_mem_step_text id e s m h1
      · exact ih h1
    · rw [if_neg hc] at h
      exact publish_mem_step_text id e s m h

/-- Every envelope a whole session ever publishes carries a text
payload. -/
theorem publish_mem_runSession_text (id : Nat) (evs : List Race) (s : Nat) (m : Message)
    (h : Action.publish s m ∈ runSession id evs) : ∃ u, m = .text u := by
  simp only [runSession, List.mem_cons] at h
  rcases h with h | h | h
  · exact Action.noConfusion h
  · exact Action.noConfusion h
  · rcases List.mem_append.mp h with h1 | h1
    · exact publish_mem_runLoop_text id evs s m h1
    · by_cases hb : (runLoop id evs).2
      · rw [if_pos hb] at h1
        simp only [exitActions, List.mem_cons] at h1
        rcases h1 with h1 | h1 | h1
        · injection h1 with h1s h1m
          exact ⟨_, h1m⟩
        · exact Action.noConfusion h1
        · simp at h1
      · rw [if_neg hb] at h1
        simp at h1

/-- C3: a non-text non-close client frame (in particular a binary one)
makes the session send exactly the policy-violation close frame
(code 1003, reason `"only text messages are allowed"`) and break out of
the loop without publishing anything; a binary envelope arriving from
the hub is discarded; and no session ever publishes a binary payload to
the hub at all. -/
theorem binary_rejected_never_relayed (id sender : Nat) (b : List Nat)
    (m : Message) (hs : sender ≠ SENTINEL)
    (hm1 : ∀ t, m ≠ .text t) (hm2 : ∀ f, m ≠ .close f) :
    step id (.Me (.frame m)) =
      ([.logWarn (Nat.repr id ++ " sent binary"),
        .sendClient (.close (some ⟨1003, "only text messages are allowed"⟩))],
       false) ∧
    (∀ s mm, Action.publish s mm ∉ (step id (.Me (.frame m))).1) ∧
    step id (.Other (.env sender (.binary b))) = ([], true) ∧
    ∀ evs s mm, Action.publish s mm ∈ runSession id evs → ∃ u, mm = .text u := by
  have hstep : step id (.Me (.frame m)) =
      ([.logWarn (Nat.repr id ++ " sent binary"),
        .sendClient (.close (some ⟨1003, "only text messages are allowed"⟩))],
       false) := by
    rcases m with t | bb | bb | bb | f
    · exact absurd rfl (hm1 t)
    · rfl
    · rfl
    · rfl
    · exact absurd rfl (hm2 f)
  refine ⟨hstep, ?_, ?_, ?_⟩
  · intro s mm
    rw [hstep]
    simp
  · simp [step, hs]
  · exact fun evs s mm h => publish_mem_runSession_text id evs s mm h

/-- C3 witness: identity 2, hub sender 3, binary payload `[0]`. -/
theorem binary_rejected_never_relayed_witness :
    ((3 : Nat) ≠ SENTINEL ∧ (∀ t, Message.binary [0] ≠ .text t) ∧
      (∀ f, Message.binary [0] ≠ .close f)) ∧
    (step 2 (.Me (.frame (.binary [0]))) =
      ([.logWarn (Nat.repr 2 ++ " sent binary"),
        .sendClient (.close (some ⟨1003, "only text messages are allowed"⟩))],
       false) ∧
    (∀ s mm, Action.publish s mm ∉ (step 2 (.Me (.frame (.binary [0])))).1) ∧
    step 2 (.Other (.env 3 (.binary [0]))) = ([], true) ∧
    ∀ evs s mm, Action.publish s mm ∈ runSession 2 evs → ∃ u, mm = .text u) :=
  ⟨⟨by decide, fun t h => Message.noConfusion h, fun f h => Message.noConfusion h⟩,
   binary_rejected_never_relayed 2 3 [0] (.binary [0]) (by decide)
     (fun t h => Message.noConfusion h) (fun f h => Message.noConfusion h)⟩

/-- Hub traces the real system can produce: every sentinel-tagged
envelope is some session's disconnect notice (the only sentinel publish
in the program is the exit action). -/
def hubWellformed (evs : List Race) : Prop :=
  ∀ s m, Race.Other (.env s m) ∈ evs → s = SENTINEL →
    ∃ j, m = .text (Nat.repr j ++ " disconnected")

/-- No single loop iteration on a well-formed event can emit the
greeting frame again. -/
theorem greet_not_mem_step (id : Nat) (e : Race)
    (hwf : ∀ s m, e = .Other (.env s m) → s = SENTINEL →
      ∃ j, m = .text (Nat.repr j ++ " disconnected")) :
    Action.sendClient (greetMsg id) ∉ (step id e).1 := by
  rcases e with he | he
  · rcases he with _ | n | ⟨s, m⟩
    · simp [step]
    · simp [step]
    · by_cases hs : s = SENTINEL
      · obtain ⟨j, rfl⟩ := hwf s m rfl hs
        simp only [step, hs, if_pos, List.mem_singleton]
        intro hmem
        injection hmem with hmm
        injection hmm with hstr
        exact youAre_ne_repr_append id j " disconnected" hstr
      · rcases m with t | b | b | b | f
        · have hstep : step id (.Other (.env s (.text t))) =
              ([.sendClient (.text (Nat.repr s ++ " says " ++ t))], true) := by
            simp [step, hs]
          rw [hstep]
          simp only [List.mem_singleton]
          intro hmem
          injection hmem with hmm
          injection hmm with hstr
          rw [String.append_assoc] at hstr
          exact youAre_ne_repr_append id s (" says " ++ t) hstr
        · simp [step, hs]
        · simp [step, hs]
        · simp [step, hs]
        · simp [step, hs]
  · rcases he with _ | _ | m
    · simp [step]
    · simp [step]
    · rcases m with t | b | b | b | f
      · by_cases hl : t.utf8ByteSize > LIMIT
        · simp only [step, hl, if_pos, List.mem_cons, List.mem_singleton]
          rintro (hmem | hmem | hmem)
          · exact Action.noConfusion hmem
          · injection hmem with hmm
            injection hmm with hstr
            exact youAre_ne_tooLong id hstr
          · simp at hmem
        · simp [step, hl]
      · simp [step, greetMsg]
      · simp [step, greetMsg]
      · simp [step, greetMsg]
      · simp [step]

/-- The loop over a well-formed trace never emits the greeting frame. -/
theorem greet_not_mem_runLoop (id : Nat) (evs : List Race)
    (hwf : hubWellformed evs) :
    Action.sendClient (greetMsg id) ∉ (runLoop id evs).1 := by
  induction evs with
  | nil => simp [runLoop]
  | cons e es ih =>
    have hstep : Action.sendClient (greetMsg id) ∉ (step id e).1 :=
      greet_not_mem_step id e
        (fun s m hee hs => hwf s m (hee ▸ List.mem_cons_self e es) hs)
    have hes : hubWellformed es :=
      fun s m hm hs => hwf s m (List.mem_cons_of_mem e hm) hs
    simp only [runLoop]
    by_cases hc : (step id e).2
    · rw [if_pos hc]
      intro hmem
      rcases List.mem_append.mp hmem with h1 | h1
      · exact hstep h1
      · exact ih hes h1
    · rw [if_neg hc]
      exact hstep

/-- C5: on any well-formed trace the first observable action of the
session — in particular its first outbound frame — is exactly the
greeting `"You are {id}"`, and the greeting frame is never sent again
afterwards. -/
theorem greeting_first_and_once (id : Nat) (evs : List Race)
    (hwf : hubWellformed evs) :
    (runSession id evs)[0]? = some (.sendClient (greetMsg id)) ∧
    Action.sendClient (greetMsg id) ∉ (runSession id evs).tail := by
  refine ⟨rfl, ?_⟩
  simp only [runSession, List.tail_cons, List.mem_cons]
  rintro (hmem | hmem)
  · exact Action.noConfusion hmem
  · rcases List.mem_append.mp hmem with h1 | h1
    · exact greet_not_mem_runLoop id evs hwf h1
    · by_cases hb : (runLoop id evs).2
      · rw [if_pos hb] at h1
        simp [exitActions] at h1
      · rw [if_neg hb] at h1
        simp at h1

/-- C5 witness on the empty trace at identity 5. -/
theorem greeting_first_and_once_witness :
    hubWellformed [] ∧
    ((runSession 5 [])[0]? = some (.sendClient (greetMsg 5)) ∧
      Action.sendClient (greetMsg 5) ∉ (runSession 5 []).tail) := by
  have hwf : hubWellformed [] := by
    intro s m hm
    exact absurd hm (List.not_mem_nil _)
  exact ⟨hwf, greeting_first_and_once 5 [] hwf⟩

/-- The ordering asserted by the spec for the Greeting state: somewhere
in the session's action sequence the hub subscription occurs at or
before the greeting send. -/
def subscribeBeforeGreeting (id : Nat) (tr : List Action) : Prop :=
  ∃ i j : Nat, i ≤ j ∧ tr[i]? = some Action.subscribe ∧
    tr[j]? = some (Action.sendClient (greetMsg id))

/-- C9 counterexample: in the session of identity 5 with no loop events
the subscription does not precede (nor coincide with) the greeting send —
the code sends `"You are 5"` first and subscribes afterwards. -/
theorem subscribe_not_before_greeting :
    ¬ subscribeBeforeGreeting 5 (runSession 5 []) := by
  rintro ⟨i, j, hij, hi, hj⟩
  have hr : runSession 5 [] = [.sendClient (greetMsg 5), .subscribe] := rfl
  rw [hr] at hi hj
  rcases j with _ | _ | j
  · rcases i with _ | i
    · simp at hi
    · simp at hi
      omega
  · simp [greetMsg] at hj
  · simp at hj

/-- C9 as amended: the session's very first action is the greeting send
and its second action is the hub subscription — the greeting precedes
the subscription, which is established immediately afterwards. -/
theorem greeting_then_subscribe (id : Nat) (evs : List Race) :
    (runSession id evs)[0]? = some (.sendClient (greetMsg id)) ∧
    (runSession id evs)[1]? = some Action.subscribe := by
  constructor <;> simp [runSession]

/-- Loop-step action lists contain no subscription changes, so walking
them cannot break the publish check while the session's own
subscription is live. -/
theorem tracePublishOk_step (id others : Nat) (e : Race) (r : List Action) :
    tracePublishOk others true ((step id e).1 ++ r) =
      tracePublishOk others true r := by
  have hok : (broadcastSend (1 + others)).toBool = true := by
    have : 1 + others ≠ 0 := by omega
    simp [broadcastSend, this, Except.toBool]
  rcases e with he | he
  · rcases he with _ | n | ⟨s, m⟩
    · rfl
    · rfl
    · by_cases hs : s = SENTINEL
      · simp [step, hs, tracePublishOk]
      · rcases m with t | b | b | b | f <;> simp [step, hs, tracePublishOk]
  · rcases he with _ | _ | m
    · rfl
    · rfl
    · rcases m with t | b | b | b | f
      · by_cases hl : t.utf8ByteSize > LIMIT
        · simp [step, hl, tracePublishOk]
        · simp [step, hl, tracePublishOk, hok]
      · rfl
      · rfl
      · rfl
      · rfl

/-- The whole loop's action list cannot break the publish check while
the session's own subscription is live. -/
theorem tracePublishOk_runLoop (id others : Nat) (evs : List Race)
    (r : List Action) :
    tracePublishOk others true ((runLoop id evs).1 ++ r) =
      tracePublishOk others true r := by
  induction evs with
  | nil => rfl
  | cons e es ih =>
    simp only [runLoop]
    by_cases hc : (step id e).2
    · rw [if_pos hc]
      rw [List.append_assoc, tracePublishOk_step id others e _]
      exact ih
    · rw [if_neg hc]
      exact tracePublishOk_step id others e r

/-- C10: every broadcast publish a session performs — the in-loop relay
of a within-limit text and the final disconnect notice — happens while
the session still holds its own live hub subscription, so the modelled
`broadcastSend` (which fails exactly when there is no receiver) succeeds
at every publish, whatever the number `others` of receivers other
sessions hold: the `unwrap` on `send` never panics. -/
theorem publishes_always_succeed (id others : Nat) (evs : List Race) :
    tracePublishOk others false (runSession id evs) = true := by
  have h1 : tracePublishOk others false (runSession id evs) =
      tracePublishOk others true
        ((runLoop id evs).1 ++
          if (runLoop id evs).2 then exitActions id else []) := rfl
  rw [h1, tracePublishOk_runLoop]
  by_cases hb : (runLoop id evs).2
  · rw [if_pos hb]
    have : 1 + others ≠ 0 := by omega
    simp [exitActions, tracePublishOk, broadcastSend, this, Except.toBool]
  · rw [if_neg hb]
    rfl

end Chamber
